import Mathlib

/-!
Verification development for the DVA audio nodes plugin
(`audio_duration_version.py`).  The Python module exposes three stateless
node entry points (duration calculation, metadata extraction, batch
processing) plus helpers.  This file gives a shallow embedding of those
functions over rational arithmetic and proves properties of the spec.

Modelling conventions:
* Python floats are modelled as `ℚ`; `round(x, p)` is modelled as
  round-half-even on the exact rational (the standard idealisation of
  CPython's float rounding).
* `torch` tensors are modelled by their shape (a `List ℕ`) plus the
  per-element byte size; the node code only ever inspects `.shape`,
  `.dim()`, `.numel()`, `.element_size()` and `.nelement()`.
* The external world (file system, pydub / librosa / ffprobe backends,
  `os.walk`, `fnmatch`) is an explicit `Env` record of oracle functions;
  operations that can raise in Python return `Except String _`.
* A Python function that catches all exceptions is modelled as a total
  function obtained by matching on the `Except` value of its body.
-/

namespace DVA

/-! ### Python-style numeric helpers -/

/-- Python `a % b` for rationals (`b > 0` at every call site):
`a - b * (a // b)`. -/
def py_mod (a b : ℚ) : ℚ := a - b * ((Rat.floor (a / b) : ℤ) : ℚ)

/-- Round a rational to the nearest integer, ties to even — the rounding
used by Python's builtin `round`. -/
def round_half_even (q : ℚ) : ℤ :=
  let f := Rat.floor q
  let r := q - (f : ℚ)
  if r < 1/2 then f
  else if (1 : ℚ)/2 < r then f + 1
  else if f % 2 = 0 then f else f + 1

/-- Python `round(q, p)` on the exact rational value. -/
def python_round (q : ℚ) (p : ℕ) : ℚ :=
  ((round_half_even (q * ((10 ^ p : ℕ) : ℚ)) : ℤ) : ℚ) / ((10 ^ p : ℕ) : ℚ)

/-- Left-pad a string with zeros to the given width (Python `0`-padded
format specifiers). -/
def pad_zeros (width : ℕ) (s : String) : String :=
  if s.length < width then String.mk (List.replicate (width - s.length) '0') ++ s else s

/-- Python fixed-point formatting `f"{q:0{width}.{decimals}f}"` for a
non-negative rational: round to `decimals` places, render, pad with
zeros to `width` characters. -/
def fmt_fixed_pad (decimals width : ℕ) (q : ℚ) : String :=
  let scale : ℕ := 10 ^ decimals
  let m := (round_half_even (q * (scale : ℚ))).toNat
  pad_zeros width (toString (m / scale) ++ "." ++ pad_zeros decimals (toString (m % scale)))

/-! ### Python string helpers (modelled over `List Char` so that they
evaluate by kernel reduction) -/

/-- ASCII lower-casing of one character (`str.lower` on the file
extensions handled here). -/
def ascii_lower (c : Char) : Char :=
  if 'A' ≤ c ∧ c ≤ 'Z' then Char.ofNat (c.toNat + 32) else c

/-- Python `s.lower()`. -/
def py_lower (s : String) : String := String.mk (s.toList.map ascii_lower)

/-- Split a character list at every occurrence of the separator
(Python `str.split(sep)` semantics: `n` separators give `n+1` parts). -/
def split_on_char (sep : Char) : List Char → List (List Char)
  | [] => [[]]
  | x :: rest =>
    let r := split_on_char sep rest
    if x = sep then [] :: r
    else
      match r with
      | [] => [[x]]
      | h :: t => (x :: h) :: t

/-- Python `s.split(sep)` for a one-character separator. -/
def py_split (sep : Char) (s : String) : List String :=
  (split_on_char sep s.toList).map String.mk

/-- The whitespace test of Python `str.strip()` (the characters that
occur in the inputs modelled here). -/
def is_space (c : Char) : Bool :=
  c == ' ' || c == '\t' || c == '\n' || c == '\r'

/-- Python `s.strip()`. -/
def py_strip (s : String) : String :=
  String.mk (((s.toList.dropWhile is_space).reverse.dropWhile is_space).reverse)

/-- Python `s.endswith(suffix)`. -/
def str_ends_with (s suffix : String) : Bool :=
  suffix.toList.isSuffixOf s.toList

/-! ### `os.path` helpers -/

/-- Index of the last occurrence of a character in a list, if any. -/
def last_idx_of (c : Char) (cs : List Char) : Option ℕ :=
  ((cs.enum.filter (fun x => x.2 == c)).getLast?).map (·.1)

/-- `os.path.splitext(p)[1]`: the extension starts at the last dot that
comes after the last separator and after at least one non-dot character
(so dotfiles like `.bashrc` have no extension). -/
def splitext_ext (p : String) : String :=
  let cs := p.toList
  let sep_idx : ℤ := ((last_idx_of '/' cs).map Int.ofNat).getD (-1)
  let dot_idx : ℤ := ((last_idx_of '.' cs).map Int.ofNat).getD (-1)
  if sep_idx < dot_idx then
    let has_stem := cs.enum.any (fun x =>
      decide (sep_idx < (x.1 : ℤ)) && decide ((x.1 : ℤ) < dot_idx) && x.2 != '.')
    if has_stem then String.mk (cs.drop dot_idx.toNat) else ""
  else ""

/-- `os.path.splitext(p)[1].lower()` as used by the node code. -/
def file_ext (p : String) : String := py_lower (splitext_ext p)

/-- `os.path.basename` (paths in this model always use `/`). -/
def basename (p : String) : String :=
  ((split_on_char '/' p.toList).map String.mk).getLastD p

/-! ### Data model -/

/-- A torch tensor, reduced to what the node code observes: shape and the
per-element byte size (`element_size()`). -/
structure Tensor where
  shape : List ℕ
  itemSize : ℕ := 4
  deriving DecidableEq

/-- The three duration backends of `_calculate_from_file`. -/
inductive Backend where
  | pydub
  | librosa
  | ffmpeg
  deriving DecidableEq

/-- The structured content of the `metadata` JSON output of the duration
node: either the empty object (error responses) or one of the two
success-path dictionaries. -/
inductive MetaJson where
  | empty
  | tensorDirect (sample_rate : ℚ) (shape : List ℕ) (time_precision : ℕ) (total_samples : ℕ)
  | fileCalc (backend : Backend) (calc_mode : String) (time_precision : ℕ)
      (file_path : String) (file_size_bytes : ℕ)
  deriving DecidableEq

/-- The fixed-arity result tuple of the duration node:
`(duration_seconds, duration_formatted, status, metadata)`. -/
structure DurationResult where
  durationSeconds : ℚ
  durationFormatted : String
  status : String
  metadata : MetaJson
  deriving DecidableEq

/-- File-system oracle (`os.path.*`).  `getsize` can raise `OSError`, so
it returns `Except`. -/
structure FileSystem where
  pathExists : String → Bool
  isFile : String → Bool
  isDir : String → Bool
  getsize : String → Except String ℕ

/-- `ffprobe` `format` section, with the fields the code reads (values
already parsed the way `float()` / `int()` would). -/
structure FfFormat where
  format_name : Option String := none
  duration : Option ℚ := none
  bit_rate : Option ℤ := none
  size : Option ℤ := none
  deriving DecidableEq

/-- `ffprobe` stream entry, with the fields the code reads. -/
structure FfStream where
  codec_type : String := ""
  sample_rate : Option ℤ := none
  channels : Option ℤ := none
  codec_name : Option String := none
  bits_per_sample : Option ℤ := none
  deriving DecidableEq

/-- Parsed `ffprobe` JSON (`format` key optional, `streams` list). -/
structure FfprobeData where
  format : Option FfFormat := none
  streams : List FfStream := []
  deriving DecidableEq

/-- The external world: availability flags probed at import time, the
three duration backends (each already wrapped with its own
try/except, hence `Except String ℚ`), the metadata oracles, the
host directories and the directory-walking / glob / fnmatch services. -/
structure Env where
  fs : FileSystem
  pydubAvailable : Bool
  librosaAvailable : Bool
  pydubCalc : String → Except String ℚ
  librosaCalc : String → Except String ℚ
  ffmpegCalc : String → Except String ℚ
  ffprobeMeta : String → FfprobeData
  mediainfoTags : String → List (String × String)
  mtimeIso : String → String
  inputDir : String
  outputDir : String
  tempDir : String
  walk : String → List (String × List String)
  globFiles : String → List String
  fnmatch : String → String → Bool

/-- The polymorphic `audio` input value.  A Python list input only has
its first element inspected (after a non-emptiness check), so the
embedding keeps just that head element. -/
inductive AudioInput where
  | dictWaveform (waveform : Tensor) (sample_rate : Option ℚ)
  | dictFilePath (path : String)
  | dictOther
  | tensor (waveform : Tensor)
  | listOf (head : AudioInput)
  | listEmpty
  | str (path : String)
  | other (py_type : String)
  deriving DecidableEq

/-! ### Duration node (`DVA_Audio_Duration_Calculator`) -/

/-- `_error_response`: the uniform error tuple
`(0.0, "00:00:00.000", "error: <msg>", "\x7b\x7d")`. -/
def error_response (error_message : String) : DurationResult :=
  { durationSeconds := 0
    durationFormatted := "00:00:00.000"
    status := "error: " ++ error_message
    metadata := .empty }

/-- Sample-count extraction of `_calculate_duration_from_tensor`:
1-D → length, 2-D → second dim, 3-D → third dim, 4-D → third dim,
otherwise the last dim. -/
def tensor_num_samples (shape : List ℕ) : ℕ :=
  match shape with
  | [n] => n
  | [_, n] => n
  | [_, _, n] => n
  | [_, _, n, _] => n
  | l => l.getLastD 0

/-- `_get_total_samples`: 1-D → `shape[0]`, 2-D → `shape[1]`,
3-D → `shape[2]`, 4-D → `shape[3]`, otherwise `shape[-1]`; its own
try/except turns the 0-D IndexError into 0. -/
def get_total_samples (shape : List ℕ) : ℕ :=
  match shape with
  | [n] => n
  | [_, n] => n
  | [_, _, n] => n
  | [_, _, _, n] => n
  | l => l.getLastD 0

/-- `_calculate_duration_from_tensor`.  A 0-D tensor raises IndexError
on `shape[-1]` and the alternative path re-raises, so the function
propagates an exception; otherwise the duration is
`num_samples / sample_rate` when both are positive, else `0.0`. -/
def calculate_duration_from_tensor (shape : List ℕ) (sample_rate : ℚ) : Except String ℚ :=
  match shape with
  | [] => .error "IndexError: tuple index out of range"
  | _ :: _ =>
    let num_samples := tensor_num_samples shape
    if 0 < num_samples ∧ 0 < sample_rate then .ok ((num_samples : ℚ) / sample_rate)
    else .ok 0

/-- `_select_calculation_mode`: `fast` for mp3/aac/m4a when pydub is
available, otherwise `accurate`. -/
def select_calculation_mode (env : Env) (audio_path : String) : String :=
  let fe := file_ext audio_path
  if (fe = ".mp3" ∨ fe = ".aac" ∨ fe = ".m4a") ∧ env.pydubAvailable = true then "fast"
  else if (fe = ".wav" ∨ fe = ".flac") ∧ env.librosaAvailable = true then "accurate"
  else "accurate"

/-- The backend dispatch of `_calculate_from_file` (lines 280–288):
pydub when mode is `fast` and pydub is importable, else librosa when
importable, else the ffprobe subprocess. -/
def used_backend (env : Env) (calc_mode : String) : Backend :=
  if calc_mode = "fast" ∧ env.pydubAvailable = true then .pydub
  else if env.librosaAvailable = true then .librosa
  else .ffmpeg

/-- Run the chosen backend (`_calculate_with_pydub` /
`_calculate_with_librosa` / `_calculate_with_ffmpeg`); each delegates
to an external library or subprocess, modelled by the `Env` oracles. -/
def run_backend (env : Env) (b : Backend) (audio_path : String) : Except String ℚ :=
  match b with
  | .pydub => env.pydubCalc audio_path
  | .librosa => env.librosaCalc audio_path
  | .ffmpeg => env.ffmpegCalc audio_path

/-- `_remove_silence_duration` is an explicit stub returning the total
duration unchanged. -/
def remove_silence_duration (_audio_path : String) (total_duration : ℚ)
    (_threshold_db : ℚ) : ℚ :=
  total_duration

/-- The `minutes:seconds` form of `_format_duration` (hour field
omitted): `f"\x7bminutes:02d\x7d:\x7bsecs:06.3f\x7d"`. -/
def hms_no_hours (minutes : ℕ) (secs : ℚ) : String :=
  pad_zeros 2 (toString minutes) ++ ":" ++ fmt_fixed_pad 3 6 secs

/-- The `hours:minutes:seconds` form of `_format_duration`. -/
def hms_with_hours (hours minutes : ℕ) (secs : ℚ) : String :=
  pad_zeros 2 (toString hours) ++ ":" ++ pad_zeros 2 (toString minutes) ++ ":" ++
    fmt_fixed_pad 3 6 secs

/-- `_format_duration`: `"00:00:00.000"` for non-positive input, else
hours/minutes/seconds split with the hour field only when non-zero. -/
def format_duration (seconds : ℚ) : String :=
  if seconds ≤ 0 then "00:00:00.000"
  else
    let hours := (Rat.floor (seconds / 3600)).toNat
    let minutes := (Rat.floor (py_mod seconds 3600 / 60)).toNat
    let secs := py_mod seconds 60
    if 0 < hours then hms_with_hours hours minutes secs else hms_no_hours minutes secs

/-- `_calculate_from_file`.  `.error` models an exception escaping to
the entry-point catch (only `os.path.getsize` can raise here); all
other failures are already mapped to `_error_response` tuples. -/
def calculate_from_file (env : Env) (audio_path calculation_mode : String)
    (time_precision : ℕ) (include_silence : Bool) (silence_threshold_db : ℚ) :
    Except String DurationResult :=
  if audio_path = "" then .ok (error_response "Путь к аудио файлу не получен")
  else if env.fs.pathExists audio_path = false then
    .ok (error_response ("Аудио файл не найден по пути: " ++ audio_path))
  else if env.fs.isFile audio_path = false then
    .ok (error_response ("Путь не является файлом: " ++ audio_path))
  else
    match env.fs.getsize audio_path with
    | .error e => .error e
    | .ok file_size =>
      if file_size = 0 then .ok (error_response "Аудио файл пустой")
      else
        let calc_mode :=
          if calculation_mode = "auto" then select_calculation_mode env audio_path
          else calculation_mode
        let backend := used_backend env calc_mode
        match run_backend env backend audio_path with
        | .error e => .ok (error_response e)
        | .ok duration =>
          let duration :=
            if include_silence = false ∧ 0 < duration then
              remove_silence_duration audio_path duration silence_threshold_db
            else duration
          let rounded := python_round duration time_precision
          .ok { durationSeconds := rounded
                durationFormatted := format_duration rounded
                status := "success"
                metadata := .fileCalc backend calc_mode time_precision audio_path file_size }

/-- The body of `calculate_audio_duration` before its outer
try/except.  The list branch recurses through the full entry point
(the recursive call has its own catch), which is what the inner
match-on-`Except` expresses. -/
def calculate_body (env : Env) (audio : AudioInput) (calculation_mode : String)
    (time_precision : ℕ) (include_silence : Bool) (silence_threshold_db : ℚ) :
    Except String DurationResult :=
  match audio with
  | .dictWaveform w sample_rate_opt =>
    let sample_rate := sample_rate_opt.getD 24000
    match calculate_duration_from_tensor w.shape sample_rate with
    | .error e => .error e
    | .ok duration =>
      let rounded := python_round duration time_precision
      .ok { durationSeconds := rounded
            durationFormatted := format_duration rounded
            status := "success"
            metadata := .tensorDirect sample_rate w.shape time_precision
              (get_total_samples w.shape) }
  | .dictFilePath p =>
    calculate_from_file env p calculation_mode time_precision include_silence
      silence_threshold_db
  | .dictOther => .ok (error_response "Неподдерживаемый тип аудио данных: <class 'dict'>")
  | .tensor w =>
    match calculate_duration_from_tensor w.shape 24000 with
    | .error e => .error e
    | .ok duration =>
      let rounded := python_round duration time_precision
      .ok { durationSeconds := rounded
            durationFormatted := format_duration rounded
            status := "success"
            metadata := .tensorDirect 24000 w.shape time_precision
              (get_total_samples w.shape) }
  | .listOf head =>
    .ok (match calculate_body env head calculation_mode time_precision include_silence
            silence_threshold_db with
         | .ok r => r
         | .error e => error_response ("Исключение: " ++ e))
  | .listEmpty => .ok (error_response "Неподдерживаемый тип аудио данных: <class 'list'>")
  | .str p =>
    calculate_from_file env p calculation_mode time_precision include_silence
      silence_threshold_db
  | .other py_type => .ok (error_response ("Неподдерживаемый тип аудио данных: " ++ py_type))

/-- `calculate_audio_duration`, the duration node's entry point: the
body wrapped in the catch-all except clause. -/
def calculate_audio_duration (env : Env) (audio : AudioInput) (calculation_mode : String)
    (time_precision : ℕ) (include_silence : Bool) (silence_threshold_db : ℚ) :
    DurationResult :=
  match calculate_body env audio calculation_mode time_precision include_silence
      silence_threshold_db with
  | .ok r => r
  | .error e => error_response ("Исключение: " ++ e)

/-- `_get_audio_path`: resolve an audio input to an existing file path,
searching the host input/output/temp directories for bare names.
Inputs that are neither strings nor dicts resolve to `None`; the
waveform dict carries none of the path keys the code probes. -/
def get_audio_path (env : Env) (audio_input : AudioInput) : Option String :=
  match audio_input with
  | .str p =>
    if env.fs.pathExists p then some p
    else if env.fs.pathExists (env.inputDir ++ "/" ++ p) then
      some (env.inputDir ++ "/" ++ p)
    else if env.fs.pathExists (env.outputDir ++ "/" ++ p) then
      some (env.outputDir ++ "/" ++ p)
    else if env.fs.pathExists (env.tempDir ++ "/" ++ p) then
      some (env.tempDir ++ "/" ++ p)
    else none
  | .dictFilePath p =>
    if p ≠ "" then
      if env.fs.pathExists p then some p
      else if env.fs.pathExists (env.inputDir ++ "/" ++ p) then
        some (env.inputDir ++ "/" ++ p)
      else none
    else none
  | _ => none

/-! ### Metadata node (`DVA_Audio_Metadata_Extractor`) -/

/-- `_get_duration_from_tensor` of the metadata extractor (its own
try/except maps the 0-D IndexError — and a division by integer zero —
to `0.0`; `ℚ` division by zero is `0` as well). -/
def get_duration_from_tensor (shape : List ℕ) (sample_rate : ℚ) : ℚ :=
  match shape with
  | [] => 0
  | [n] => (n : ℚ) / sample_rate
  | [_, n] => (n : ℚ) / sample_rate
  | [_, _, n] => (n : ℚ) / sample_rate
  | l => ((l.getLastD 0 : ℕ) : ℚ) / sample_rate

/-- The channel count synthesised for in-memory buffers (line 622):
`waveform.shape[1] if waveform.dim() >= 2 and waveform.shape[1] <= 2 else 1`. -/
def tensor_channels (shape : List ℕ) : ℕ :=
  match shape with
  | _ :: c :: _ => if c ≤ 2 then c else 1
  | _ => 1

/-- `_extract_technical_metadata` output dictionary; `none` means the
key is absent. -/
structure TechData where
  duration_seconds : Option ℚ := none
  bitrate_bps : Option ℤ := none
  size_bytes : Option ℤ := none
  sample_rate : Option ℤ := none
  channels : Option ℤ := none
  codec : Option String := none
  bits_per_sample : Option ℤ := none
  deriving DecidableEq

/-- `_extract_technical_metadata`: format-level fields when the
`format` key is present, stream-level fields from the first audio
stream when one exists. -/
def extract_technical_metadata (d : FfprobeData) : TechData :=
  let base : TechData := {}
  let with_fmt :=
    match d.format with
    | some fmt =>
      { base with duration_seconds := some (fmt.duration.getD 0)
                  bitrate_bps := some (fmt.bit_rate.getD 0)
                  size_bytes := some (fmt.size.getD 0) }
    | none => base
  match d.streams.filter (fun s => s.codec_type == "audio") with
  | [] => with_fmt
  | s :: _ =>
    { with_fmt with sample_rate := some (s.sample_rate.getD 0)
                    channels := some (s.channels.getD 1)
                    codec := some (s.codec_name.getD "unknown")
                    bits_per_sample := some (s.bits_per_sample.getD 0) }

/-- One top-level section of the metadata record. -/
inductive SectionData where
  | fmtTensor (sample_rate : ℚ)
  | techTensor (duration_seconds : ℚ) (sample_rate : ℚ) (channels : ℕ) (total_samples : ℕ)
  | fileInfoTensor (size_bytes : ℕ)
  | fileInfoFile (path name : String) (size_bytes : ℕ) (size_mb : ℚ) (modified : String)
  | fmtFile (fmt : FfFormat)
  | techFile (tech : TechData)
  | tagsFile (tags : List (String × String))
  deriving DecidableEq

/-- The metadata record: either the serialised empty object or an
ordered dictionary of sections (insertion order preserved). -/
inductive MetaBlob where
  | emptyObj
  | record (sections : List (String × SectionData))
  deriving DecidableEq

/-- `dict.get(key)` over the ordered section list. -/
def lookup_section (key : String) (md : List (String × SectionData)) : Option SectionData :=
  (md.find? (fun kv => kv.1 == key)).map (·.2)

/-- Top-level keys of the metadata record in insertion order. -/
def section_keys : MetaBlob → List String
  | .emptyObj => []
  | .record md => md.map Prod.fst

/-- The result tuple of the metadata node:
`(metadata, summary, format, duration)`. -/
structure MetaOut where
  metadata : MetaBlob
  summary : String
  audio_format : String
  duration : ℚ
  deriving DecidableEq

/-- `str(x)` for a rational that stands in for a Python int (used for
sample rates in the summary; the dict sample rates are ints). -/
def py_num_str (q : ℚ) : String :=
  if q.den = 1 then toString q.num else toString q.num ++ "/" ++ toString q.den

/-- `str(round(x, 2))` for a non-negative float: Python drops trailing
fractional zeros but keeps at least one decimal digit. -/
def py_round2_str (q : ℚ) : String :=
  let m := (round_half_even (q * 100)).toNat
  if m % 100 = 0 then toString (m / 100) ++ ".0"
  else if m % 10 = 0 then toString (m / 100) ++ "." ++ toString (m % 100 / 10)
  else toString (m / 100) ++ "." ++ pad_zeros 2 (toString (m % 100))

/-- The duration string of `_create_metadata_summary`
(`f"\x7bhours\x7d:\x7bminutes:02d\x7d:\x7bsecs:04.1f\x7d"`, hour field only when non-zero). -/
def summary_duration_str (d : ℚ) : String :=
  let hours := (Rat.floor (d / 3600)).toNat
  let minutes := (Rat.floor (py_mod d 3600 / 60)).toNat
  let secs := py_mod d 60
  if 0 < hours then
    toString hours ++ ":" ++ pad_zeros 2 (toString minutes) ++ ":" ++ fmt_fixed_pad 1 4 secs
  else toString minutes ++ ":" ++ fmt_fixed_pad 1 4 secs

/-- `_create_metadata_summary`: filename+size, duration, sample rate and
channel count joined with `" | "`, skipping absent or falsy fields. -/
def create_metadata_summary (md : List (String × SectionData)) : String :=
  let parts : List String := []
  let parts :=
    match lookup_section "file_info" md with
    | some (.fileInfoFile _ name _ size_mb _) =>
      parts ++ [name ++ " (" ++ py_round2_str size_mb ++ " MB)"]
    | some (.fileInfoTensor _) => parts ++ ["audio_tensor (0 MB)"]
    | _ => parts
  let parts :=
    match lookup_section "technical" md with
    | some (.techTensor d sr ch _) =>
      let parts := if 0 < d then parts ++ ["Duration: " ++ summary_duration_str d] else parts
      let parts := if sr ≠ 0 then parts ++ [py_num_str sr ++ " Hz"] else parts
      if ch ≠ 0 then parts ++ [toString ch ++ "ch"] else parts
    | some (.techFile t) =>
      let d := t.duration_seconds.getD 0
      let parts := if 0 < d then parts ++ ["Duration: " ++ summary_duration_str d] else parts
      let parts :=
        if t.sample_rate.isSome ∧ t.sample_rate.getD 0 ≠ 0 then
          parts ++ [toString (t.sample_rate.getD 0) ++ " Hz"]
        else parts
      if t.channels.isSome ∧ t.channels.getD 0 ≠ 0 then
        parts ++ [toString (t.channels.getD 0) ++ "ch"]
      else parts
    | _ => parts
  String.intercalate " | " parts

/-- The mediainfo keys stripped from the `tags` section because the
technical section already covers them. -/
def tag_excluded_keys : List String :=
  ["format_name", "duration", "bit_rate", "sample_rate", "channels"]

/-- `_extract_all_metadata`: always a `file_info` section, then
`format` / `technical` (from one ffprobe call) and `tags` (from
pydub's mediainfo) according to the toggles.  Only
`os.path.getsize` can raise here. -/
def extract_all_metadata (env : Env) (audio_path : String)
    (extract_format extract_technical extract_tags : Bool) :
    Except String (List (String × SectionData)) :=
  match env.fs.getsize audio_path with
  | .error e => .error e
  | .ok size_bytes =>
    let file_info :=
      ("file_info", SectionData.fileInfoFile audio_path (basename audio_path) size_bytes
        (python_round ((size_bytes : ℚ) / (1024 * 1024)) 2) (env.mtimeIso audio_path))
    let ffprobe_data := env.ffprobeMeta audio_path
    let fmt_sections :=
      if extract_format then [("format", SectionData.fmtFile (ffprobe_data.format.getD {}))]
      else []
    let tech_sections :=
      if extract_technical then
        [("technical", SectionData.techFile (extract_technical_metadata ffprobe_data))]
      else []
    let tags_sections :=
      if extract_tags && env.pydubAvailable then
        [("tags", SectionData.tagsFile ((env.mediainfoTags audio_path).filter
          (fun kv => !(tag_excluded_keys.contains kv.1))))]
      else []
    .ok ([file_info] ++ fmt_sections ++ tech_sections ++ tags_sections)

/-- The `(metadata, summary, format, duration)` tuple returned when no
file path could be resolved. -/
def metadata_not_found : MetaOut :=
  { metadata := .emptyObj, summary := "Error: Audio file not found"
    audio_format := "unknown", duration := 0 }

/-- The non-waveform flow of `extract_audio_metadata`: resolve a path
via `_get_audio_path`, then project the requested sections from
`_extract_all_metadata`. -/
def extract_body_from_path (env : Env) (audio : AudioInput)
    (extract_format extract_technical extract_tags : Bool) : Except String MetaOut :=
  match get_audio_path env audio with
  | none => .ok metadata_not_found
  | some audio_path =>
    if env.fs.pathExists audio_path = false then .ok metadata_not_found
    else
      match extract_all_metadata env audio_path extract_format extract_technical
          extract_tags with
      | .error e => .error e
      | .ok md =>
        let audio_format :=
          match lookup_section "format" md with
          | some (.fmtFile f) => f.format_name.getD "unknown"
          | some (.fmtTensor _) => "tensor"
          | _ => "unknown"
        let duration :=
          match lookup_section "technical" md with
          | some (.techFile t) => t.duration_seconds.getD 0
          | some (.techTensor d _ _ _) => d
          | _ => 0
        .ok { metadata := .record md, summary := create_metadata_summary md
              audio_format := audio_format, duration := duration }

/-- Body of `extract_audio_metadata` before its outer try/except. -/
def extract_body (env : Env) (audio : AudioInput)
    (extract_format extract_technical extract_tags : Bool) : Except String MetaOut :=
  match audio with
  | .dictWaveform w sample_rate_opt =>
    let sample_rate := sample_rate_opt.getD 24000
    let duration := get_duration_from_tensor w.shape sample_rate
    let md : List (String × SectionData) :=
      [("format", .fmtTensor sample_rate),
       ("technical", .techTensor duration sample_rate (tensor_channels w.shape)
         (w.shape.getLastD 0)),
       ("file_info", .fileInfoTensor (w.itemSize * w.shape.prod))]
    .ok { metadata := .record md, summary := create_metadata_summary md
          audio_format := "tensor", duration := duration }
  | a => extract_body_from_path env a extract_format extract_technical extract_tags

/-- `extract_audio_metadata`, the metadata node's entry point. -/
def extract_audio_metadata (env : Env) (audio : AudioInput)
    (extract_format extract_technical extract_tags : Bool) : MetaOut :=
  match extract_body env audio extract_format extract_technical extract_tags with
  | .ok r => r
  | .error e =>
    { metadata := .emptyObj, summary := "Error: " ++ e, audio_format := "error"
      duration := 0 }

/-! ### Batch node (`DVA_Audio_Batch_Processor`) -/

/-- One per-file batch result dictionary; `none` marks keys the code
did not set.  The `duration_error` / `metadata_error` keys can only be
set when an inner entry point raises, which the entry points never do
(they catch everything), so they are omitted from the model. -/
structure BatchRecord where
  file : String
  filename : Option String := none
  size_bytes : Option ℕ := none
  status : String
  duration_seconds : Option ℚ := none
  duration_formatted : Option String := none
  metadata : Option MetaBlob := none
  error_msg : Option String := none
  deriving DecidableEq

/-- The `results` output: empty JSON object on batch-level failure or
the list of per-file records. -/
inductive BatchResultsBlob where
  | emptyObj
  | records (rs : List BatchRecord)
  deriving DecidableEq

/-- The `file_list` output: empty JSON list on failure or the
discovered files. -/
inductive FileListBlob where
  | emptyList
  | files (fs : List String)
  deriving DecidableEq

/-- The `(results, summary, file_list)` tuple of the batch node. -/
structure BatchOut where
  results : BatchResultsBlob
  summary : String
  file_list : FileListBlob
  deriving DecidableEq

/-- `_find_audio_files`: split the comma-separated patterns, collect
matches per walk root (recursive) or per glob (non-recursive), then
`sorted(list(set(...)))` — deduplicate and sort lexicographically. -/
def find_audio_files (env : Env) (directory pattern : String) (recursive : Bool) :
    List String :=
  let patterns := (py_split ',' pattern).map py_strip
  let audio_files :=
    if recursive then
      (env.walk directory).flatMap (fun rf =>
        patterns.flatMap (fun file_pattern =>
          (rf.2.filter (fun f => env.fnmatch f file_pattern)).map
            (fun f => rf.1 ++ "/" ++ f)))
    else
      patterns.flatMap (fun file_pattern => env.globFiles (directory ++ "/" ++ file_pattern))
  (audio_files.dedup).insertionSort (· ≤ ·)

/-- `_process_single_file`: build the record with `status: "success"`,
then fill in duration and/or metadata from the two node entry points
(called with their default arguments).  Only the initial
`os.path.getsize` can raise. -/
def process_single_file (env : Env) (audio_file operation : String) :
    Except String BatchRecord :=
  match env.fs.getsize audio_file with
  | .error e => .error e
  | .ok sz =>
    let r : BatchRecord :=
      { file := audio_file, filename := some (basename audio_file)
        size_bytes := some sz, status := "success" }
    let r :=
      if operation == "duration" || operation == "both" then
        let dres := calculate_audio_duration env (.dictFilePath audio_file) "auto" 3 true (-60)
        { r with duration_seconds := some dres.durationSeconds
                 duration_formatted := some dres.durationFormatted }
      else r
    let r :=
      if operation == "metadata" || operation == "both" then
        let mres := extract_audio_metadata env (.dictFilePath audio_file) true true false
        { r with metadata := some mres.metadata }
      else r
    .ok r

/-- The per-file step of the batch loop: a raising
`_process_single_file` is converted to a `status: "failed"` record. -/
def single_record (env : Env) (audio_file operation : String) : BatchRecord :=
  match process_single_file env audio_file operation with
  | .ok r => r
  | .error e => { file := audio_file, status := "failed", error_msg := some e }

/-- The `successful` count of `_create_batch_summary`. -/
def success_count (results : List BatchRecord) : ℕ :=
  (results.filter (fun r => r.status == "success")).length

/-- `_create_batch_summary`: `Processed X/N files`, with an adaptive
total-duration suffix when duration was requested. -/
def create_batch_summary (results : List BatchRecord) (operation : String) : String :=
  let total := results.length
  let successful := success_count results
  if operation == "duration" || operation == "both" then
    let total_duration := (results.filterMap (fun r => r.duration_seconds)).sum
    let dur_str :=
      if total_duration < 60 then fmt_fixed_pad 1 0 total_duration ++ "s"
      else if total_duration < 3600 then fmt_fixed_pad 1 0 (total_duration / 60) ++ "m"
      else fmt_fixed_pad 1 0 (total_duration / 3600) ++ "h"
    "Processed " ++ toString successful ++ "/" ++ toString total ++ " files | " ++
      "Total duration: " ++ dur_str
  else
    "Processed " ++ toString successful ++ "/" ++ toString total ++ " files"

/-- `process_audio_batch`, the batch node's entry point.  Nothing in
the loop can raise (the per-file step already isolates failures), so
the outer try/except of the Python code is unreachable in the model. -/
def process_audio_batch (env : Env) (directory_path file_pattern operation : String)
    (recursive : Bool) : BatchOut :=
  if directory_path = "" ∨ env.fs.isDir directory_path = false then
    { results := .emptyObj, summary := "Error: Directory not found", file_list := .emptyList }
  else
    let audio_files := find_audio_files env directory_path file_pattern recursive
    if audio_files.isEmpty then
      { results := .emptyObj, summary := "No audio files found", file_list := .emptyList }
    else
      let results := audio_files.map (fun f => single_record env f operation)
      { results := .records results
        summary := create_batch_summary results operation
        file_list := .files audio_files }

/-- The record list inside a `results` blob (empty for the error blob). -/
def records_of : BatchResultsBlob → List BatchRecord
  | .emptyObj => []
  | .records rs => rs

/-- The per-file records produced by a batch invocation. -/
def batch_records (env : Env) (directory_path file_pattern operation : String)
    (recursive : Bool) : List BatchRecord :=
  records_of (process_audio_batch env directory_path file_pattern operation recursive).results

/-- Whether a file name matches any of the comma-separated patterns
(the membership test `_find_audio_files` effectively performs). -/
def matches_any (env : Env) (pattern f : String) : Bool :=
  ((py_split ',' pattern).map py_strip).any (fun pat => env.fnmatch f pat)

/-! ### Helper lemmas -/

lemma rat_floor_nonneg {q : ℚ} (h : 0 ≤ q) : 0 ≤ Rat.floor q :=
  Rat.le_floor.mpr (by exact_mod_cast h)

lemma rat_floor_eq_zero {q : ℚ} (h0 : 0 ≤ q) (h1 : q < 1) : Rat.floor q = 0 := by
  have ha : (0 : ℤ) ≤ Rat.floor q := rat_floor_nonneg h0
  have hb : ¬ (1 : ℤ) ≤ Rat.floor q := by
    intro hc
    have := Rat.le_floor.mp hc
    push_cast at this
    linarith
  omega

lemma rat_floor_intCast (z : ℤ) : Rat.floor ((z : ℤ) : ℚ) = z := by
  have ha : z ≤ Rat.floor ((z : ℤ) : ℚ) := Rat.le_floor.mpr le_rfl
  have hb : ¬ (z + 1 ≤ Rat.floor ((z : ℤ) : ℚ)) := by
    intro hc
    have := Rat.le_floor.mp hc
    push_cast at this
    linarith
  omega

lemma round_half_even_nonneg {q : ℚ} (h : 0 ≤ q) : 0 ≤ round_half_even q := by
  have hf : 0 ≤ Rat.floor q := rat_floor_nonneg h
  simp only [round_half_even]
  split_ifs <;> omega

lemma round_half_even_intCast (z : ℤ) : round_half_even ((z : ℤ) : ℚ) = z := by
  simp only [round_half_even, rat_floor_intCast]
  rw [if_pos (by norm_num)]

lemma python_round_nonneg {q : ℚ} (h : 0 ≤ q) (p : ℕ) : 0 ≤ python_round q p := by
  unfold python_round
  apply div_nonneg
  · exact_mod_cast round_half_even_nonneg (by positivity)
  · positivity

lemma python_round_zero (p : ℕ) : python_round 0 p = 0 := by
  unfold python_round
  have h : (0 : ℚ) * ((10 ^ p : ℕ) : ℚ) = ((0 : ℤ) : ℚ) := by
    push_cast
    ring
  rw [h, round_half_even_intCast]
  simp

lemma string_append_left_cancel {s a b : String} (h : s ++ a = s ++ b) : a = b := by
  have hd : (s ++ a).data = (s ++ b).data := congrArg String.data h
  rw [String.data_append, String.data_append] at hd
  cases a
  cases b
  simp only [List.append_cancel_left_eq] at hd
  exact congrArg String.mk hd

/-- Unfolding lemma: for a non-empty shape, the tensor-duration
function is the guarded quotient. -/
lemma calculate_duration_from_tensor_cons (a : ℕ) (l : List ℕ) (r : ℚ) :
    calculate_duration_from_tensor (a :: l) r =
      if 0 < tensor_num_samples (a :: l) ∧ 0 < r then
        .ok ((tensor_num_samples (a :: l) : ℚ) / r)
      else .ok 0 := rfl

/-! ### C1 -/

/-- C1: for an in-memory buffer handed to the duration node, the
duration computed before rounding by `_calculate_duration_from_tensor`
is `N / R` for a rank-1 buffer of `N` samples at rate `R > 0`, and
`n / R` for a rank-2 buffer of shape `(c, n)` with `c ≤ 2` as well as
for shape `(b, n)` with `b > 2` — the second dimension is the sample
count in both rank-2 layouts. -/
theorem c1_tensor_duration_before_rounding :
    (∀ (n : ℕ) (r : ℚ), 0 < r →
      calculate_duration_from_tensor [n] r = .ok ((n : ℚ) / r)) ∧
    (∀ (c n : ℕ) (r : ℚ), c ≤ 2 → 0 < r →
      calculate_duration_from_tensor [c, n] r = .ok ((n : ℚ) / r)) ∧
    (∀ (b n : ℕ) (r : ℚ), 2 < b → 0 < r →
      calculate_duration_from_tensor [b, n] r = .ok ((n : ℚ) / r)) := by
  refine ⟨?_, ?_, ?_⟩
  · intro n r hr
    show (if 0 < n ∧ 0 < r then Except.ok ((n : ℚ) / r) else Except.ok 0) =
      Except.ok ((n : ℚ) / r)
    rcases Nat.eq_zero_or_pos n with h | h
    · subst h; simp
    · rw [if_pos ⟨h, hr⟩]
  · intro c n r _ hr
    show (if 0 < n ∧ 0 < r then Except.ok ((n : ℚ) / r) else Except.ok 0) =
      Except.ok ((n : ℚ) / r)
    rcases Nat.eq_zero_or_pos n with h | h
    · subst h; simp
    · rw [if_pos ⟨h, hr⟩]
  · intro b n r _ hr
    show (if 0 < n ∧ 0 < r then Except.ok ((n : ℚ) / r) else Except.ok 0) =
      Except.ok ((n : ℚ) / r)
    rcases Nat.eq_zero_or_pos n with h | h
    · subst h; simp
    · rw [if_pos ⟨h, hr⟩]

/-- Witness for C1: a stereo buffer of shape `(2, 48000)` at 24000 Hz
is two seconds long before rounding. -/
theorem c1_tensor_duration_before_rounding_witness :
    calculate_duration_from_tensor [2, 48000] 24000 = .ok 2 := by
  have h := c1_tensor_duration_before_rounding.2.1 2 48000 24000 (by norm_num) (by norm_num)
  rw [h]
  norm_num

/-! ### C7 -/

/-- C7: `_format_duration` returns exactly `"00:00:00.000"` for 0
seconds, returns `"00:05.500"` for 5.5 seconds, and for every positive
duration below one hour (hour component zero) it takes the
`MM:SS.mmm` branch that omits the hour field. -/
theorem c7_format_duration_zero_and_no_hours :
    format_duration 0 = "00:00:00.000" ∧
    format_duration (11/2 : ℚ) = "00:05.500" ∧
    ∀ s : ℚ, 0 < s → s < 3600 →
      format_duration s =
        hms_no_hours ((Rat.floor (py_mod s 3600 / 60)).toNat) (py_mod s 60) := by
  have key : ∀ s : ℚ, 0 < s → s < 3600 →
      format_duration s =
        hms_no_hours ((Rat.floor (py_mod s 3600 / 60)).toNat) (py_mod s 60) := by
    intro s hs h36
    have h0 : Rat.floor (s / 3600) = 0 :=
      rat_floor_eq_zero (by positivity) ((div_lt_one (by norm_num)).mpr h36)
    show (if s ≤ 0 then "00:00:00.000"
          else if 0 < (Rat.floor (s / 3600)).toNat then
            hms_with_hours ((Rat.floor (s / 3600)).toNat)
              ((Rat.floor (py_mod s 3600 / 60)).toNat) (py_mod s 60)
          else hms_no_hours ((Rat.floor (py_mod s 3600 / 60)).toNat) (py_mod s 60)) =
        hms_no_hours ((Rat.floor (py_mod s 3600 / 60)).toNat) (py_mod s 60)
    rw [if_neg (not_le.mpr hs), h0]
    norm_num
  refine ⟨?_, ?_, key⟩
  · unfold format_duration
    rw [if_pos le_rfl]
  · rw [key (11/2) (by norm_num) (by norm_num)]
    have e1 : py_mod (11/2 : ℚ) 3600 = 11/2 := by
      unfold py_mod
      rw [rat_floor_eq_zero (by norm_num) (by norm_num)]
      norm_num
    have e2 : py_mod (11/2 : ℚ) 60 = 11/2 := by
      unfold py_mod
      rw [rat_floor_eq_zero (by norm_num) (by norm_num)]
      norm_num
    rw [e1, e2]
    have e3 : Rat.floor ((11/2 : ℚ) / 60) = 0 :=
      rat_floor_eq_zero (by norm_num) (by norm_num)
    rw [e3]
    have e4 : fmt_fixed_pad 3 6 (11/2 : ℚ) = "05.500" := by
      have hm : round_half_even ((11/2 : ℚ) * ((10 ^ 3 : ℕ) : ℚ)) = 5500 := by
        have harg : (11/2 : ℚ) * ((10 ^ 3 : ℕ) : ℚ) = ((5500 : ℤ) : ℚ) := by
          push_cast
          norm_num
        rw [harg, round_half_even_intCast]
      simp only [fmt_fixed_pad]
      rw [hm]
      decide
    unfold hms_no_hours
    rw [e4]
    decide

/-- Witness for C7: 5.5 seconds exercises the hour-omitting branch. -/
theorem c7_format_duration_zero_and_no_hours_witness :
    format_duration (11/2 : ℚ) =
      hms_no_hours ((Rat.floor (py_mod (11/2 : ℚ) 3600 / 60)).toNat)
        (py_mod (11/2 : ℚ) 60) :=
  c7_format_duration_zero_and_no_hours.2.2 (11/2) (by norm_num) (by norm_num)

/-! ### Concrete environments used by witnesses and counterexamples -/

/-- A file system in which every path is an existing 4-byte file. -/
def triv_fs : FileSystem :=
  { pathExists := fun _ => true, isFile := fun _ => true, isDir := fun _ => true
    getsize := fun _ => .ok 4 }

/-- A benign environment: both libraries importable, every backend
reports a one-second duration. -/
def triv_env : Env :=
  { fs := triv_fs, pydubAvailable := true, librosaAvailable := true
    pydubCalc := fun _ => .ok 1, librosaCalc := fun _ => .ok 1
    ffmpegCalc := fun _ => .ok 1, ffprobeMeta := fun _ => {}
    mediainfoTags := fun _ => [], mtimeIso := fun _ => "1970-01-01T00:00:00"
    inputDir := "input", outputDir := "output", tempDir := "temp"
    walk := fun _ => [], globFiles := fun _ => [], fnmatch := fun _ _ => false }

/-- An environment in which no path exists. -/
def missing_env : Env :=
  { triv_env with
    fs := { pathExists := fun _ => false, isFile := fun _ => false
            isDir := fun _ => false, getsize := fun _ => .error "OSError" } }

/-- An environment in which every path is an existing zero-byte file. -/
def empty_file_env : Env :=
  { triv_env with fs := { triv_fs with getsize := fun _ => .ok 0 } }

/-! ### C5 -/

/-- C5: under `auto` mode, `_select_calculation_mode` chooses `fast`
(the pydub backend) exactly for mp3/aac/m4a files when pydub is
importable, and `accurate` in every other situation; the dispatch of
`_calculate_from_file` then degrades `accurate` to librosa when it is
importable and to the ffprobe subprocess otherwise, so ffprobe is the
last resort when neither library is present. -/
theorem c5_auto_backend_selection : ∀ (env : Env) (p : String),
    ((file_ext p = ".mp3" ∨ file_ext p = ".aac" ∨ file_ext p = ".m4a") ∧
        env.pydubAvailable = true →
      select_calculation_mode env p = "fast" ∧
      used_backend env (select_calculation_mode env p) = .pydub) ∧
    (¬ ((file_ext p = ".mp3" ∨ file_ext p = ".aac" ∨ file_ext p = ".m4a") ∧
        env.pydubAvailable = true) →
      select_calculation_mode env p = "accurate" ∧
      (env.librosaAvailable = true →
        used_backend env (select_calculation_mode env p) = .librosa) ∧
      (env.librosaAvailable = false →
        used_backend env (select_calculation_mode env p) = .ffmpeg)) ∧
    (env.pydubAvailable = false ∧ env.librosaAvailable = false →
      used_backend env (select_calculation_mode env p) = .ffmpeg) := by
  intro env p
  refine ⟨?_, ?_, ?_⟩
  · rintro ⟨hext, hpd⟩
    have hm : select_calculation_mode env p = "fast" := by
      unfold select_calculation_mode
      rw [if_pos ⟨hext, hpd⟩]
    refine ⟨hm, ?_⟩
    rw [hm]
    unfold used_backend
    rw [if_pos ⟨rfl, hpd⟩]
  · intro hn
    have hm : select_calculation_mode env p = "accurate" := by
      unfold select_calculation_mode
      rw [if_neg hn]
      split_ifs <;> rfl
    have hnotfast : ¬ (("accurate" : String) = "fast" ∧ env.pydubAvailable = true) := by
      rintro ⟨hc, _⟩
      exact absurd hc (by decide)
    refine ⟨hm, ?_, ?_⟩
    · intro hl
      rw [hm]
      unfold used_backend
      rw [if_neg hnotfast, if_pos hl]
    · intro hl
      rw [hm]
      unfold used_backend
      rw [if_neg hnotfast, if_neg (by simp [hl])]
  · rintro ⟨hp, hl⟩
    have hm : select_calculation_mode env p = "accurate" := by
      unfold select_calculation_mode
      rw [if_neg (by rintro ⟨_, hc⟩; rw [hp] at hc; cases hc)]
      split_ifs <;> rfl
    rw [hm]
    unfold used_backend
    rw [if_neg (by rintro ⟨_, hc⟩; rw [hp] at hc; cases hc), if_neg (by simp [hl])]

/-- Witness for C5: an mp3 with pydub importable selects the fast
pydub backend. -/
theorem c5_auto_backend_selection_witness :
    select_calculation_mode triv_env "song.mp3" = "fast" ∧
    used_backend triv_env (select_calculation_mode triv_env "song.mp3") = .pydub :=
  (c5_auto_backend_selection triv_env "song.mp3").1 ⟨by decide, rfl⟩

/-! ### C6 -/

/-- C6: for a path naming a non-existent file the duration entry point
returns exactly `(0.0, "00:00:00.000", "error: <msg>", empty-JSON)`
(the concrete not-found message for a non-empty path, the
no-path-received message for the empty string, which `os.path.exists`
also rejects), and for an existing zero-byte file the same error tuple
with the empty-file message. -/
theorem c6_missing_and_empty_file_error_tuple :
    ∀ (env : Env) (p cm : String) (tp : ℕ) (inc : Bool) (th : ℚ),
    (env.fs.pathExists p = false → p ≠ "" →
      calculate_audio_duration env (.str p) cm tp inc th =
        { durationSeconds := 0, durationFormatted := "00:00:00.000"
          status := "error: " ++ ("Аудио файл не найден по пути: " ++ p)
          metadata := .empty }) ∧
    (p = "" →
      calculate_audio_duration env (.str p) cm tp inc th =
        { durationSeconds := 0, durationFormatted := "00:00:00.000"
          status := "error: " ++ "Путь к аудио файлу не получен"
          metadata := .empty }) ∧
    (p ≠ "" → env.fs.pathExists p = true → env.fs.isFile p = true →
      env.fs.getsize p = .ok 0 →
      calculate_audio_duration env (.str p) cm tp inc th =
        { durationSeconds := 0, durationFormatted := "00:00:00.000"
          status := "error: " ++ "Аудио файл пустой"
          metadata := .empty }) := by
  intro env p cm tp inc th
  refine ⟨?_, ?_, ?_⟩
  · intro hex hne
    unfold calculate_audio_duration calculate_body calculate_from_file
    rw [if_neg hne, if_pos hex]
    rfl
  · intro he
    subst he
    unfold calculate_audio_duration calculate_body calculate_from_file
    rw [if_pos rfl]
    rfl
  · intro hne hex hisf hgs
    unfold calculate_audio_duration calculate_body calculate_from_file
    rw [if_neg hne, if_neg (by simp [hex]), if_neg (by simp [hisf]), hgs]
    rfl

/-- Witness for C6: both error tuples at concrete environments. -/
theorem c6_missing_and_empty_file_error_tuple_witness :
    calculate_audio_duration missing_env (.str "x.wav") "auto" 3 true (-60) =
      { durationSeconds := 0, durationFormatted := "00:00:00.000"
        status := "error: " ++ ("Аудио файл не найден по пути: " ++ "x.wav")
        metadata := .empty } ∧
    calculate_audio_duration empty_file_env (.str "x.wav") "auto" 3 true (-60) =
      { durationSeconds := 0, durationFormatted := "00:00:00.000"
        status := "error: " ++ "Аудио файл пустой"
        metadata := .empty } :=
  ⟨(c6_missing_and_empty_file_error_tuple missing_env "x.wav" "auto" 3 true (-60)).1
      rfl (by decide),
   (c6_missing_and_empty_file_error_tuple empty_file_env "x.wav" "auto" 3 true (-60)).2.2
      (by decide) rfl rfl rfl⟩

/-! ### C9 -/

/-- C9: with all three section toggles disabled, the metadata record
built for an existing file path contains exactly the `file_info`
section. -/
theorem c9_toggles_off_only_file_info : ∀ (env : Env) (p : String) (n : ℕ),
    env.fs.pathExists p = true → env.fs.getsize p = .ok n →
    section_keys (extract_audio_metadata env (.str p) false false false).metadata =
      ["file_info"] := by
  intro env p n hex hgs
  have hp : get_audio_path env (.str p) = some p := by
    simp only [get_audio_path]
    rw [if_pos hex]
  simp only [extract_audio_metadata, extract_body, extract_body_from_path, hp]
  rw [if_neg (by simp [hex])]
  unfold extract_all_metadata
  rw [hgs]
  rfl

/-- Witness for C9: a concrete existing file. -/
theorem c9_toggles_off_only_file_info_witness :
    section_keys (extract_audio_metadata triv_env (.str "x.wav") false false false).metadata =
      ["file_info"] :=
  c9_toggles_off_only_file_info triv_env "x.wav" 4 rfl rfl

/-! ### C4 -/

/-- The channel heuristic as the claim words it (modelled from the
spec for comparison): a rank-2 buffer whose first dimension is at most
2 is channel-first and that first dimension is the channel count. -/
def spec_rank2_channels (shape : List ℕ) : ℕ :=
  match shape with
  | [c, _] => if c ≤ 2 then c else 1
  | _ => 1

/-- The `channels` entry of the technical section of a metadata
result, when present. -/
def tech_channels_of (out : MetaOut) : Option ℕ :=
  match out.metadata with
  | .record md =>
    match lookup_section "technical" md with
    | some (.techTensor _ _ ch _) => some ch
    | some (.techFile t) => t.channels.map Int.toNat
    | _ => none
  | .emptyObj => none

/-- Counterexample for C4: a rank-2 stereo buffer of shape `(2, 4)`
must have channel count 2 under the claim's first-dimension heuristic,
but the metadata node reports 1 — line 622 tests `shape[1] <= 2`, the
second dimension, not the first. -/
theorem c4_counterexample_rank2_stereo :
    tech_channels_of (extract_audio_metadata triv_env
        (.dictWaveform ⟨[2, 4], 4⟩ (some 44100)) true true false) = some 1 ∧
    spec_rank2_channels [2, 4] = 2 ∧ (1 : ℕ) ≠ 2 := by
  refine ⟨rfl, rfl, by decide⟩

/-- C4 amended: for an in-memory buffer, the synthesized channel count
is the buffer's second dimension when the rank is at least 2 and that
dimension is at most 2, and 1 otherwise (the heuristic fits the 3-D
`(batch, channels, samples)` layout, not the duration node's rank-2
first-dimension rule). -/
theorem c4_amended_channels_second_dimension :
    (∀ (env : Env) (w : Tensor) (sr : ℚ) (f t g : Bool),
      tech_channels_of (extract_audio_metadata env (.dictWaveform w (some sr)) f t g) =
        some (tensor_channels w.shape)) ∧
    (∀ (a c : ℕ) (rest : List ℕ),
      tensor_channels (a :: c :: rest) = if c ≤ 2 then c else 1) ∧
    tensor_channels [] = 1 ∧ (∀ n : ℕ, tensor_channels [n] = 1) := by
  exact ⟨fun env w sr f t g => rfl, fun a c rest => rfl, rfl, fun n => rfl⟩

/-! ### Structural lemmas shared by C2, C3 and C10 -/

/-- The external backends only ever report non-negative durations
(audio lengths); the node code itself is responsible for everything
downstream of that. -/
def backends_nonneg (env : Env) : Prop :=
  (∀ p d, env.pydubCalc p = .ok d → 0 ≤ d) ∧
  (∀ p d, env.librosaCalc p = .ok d → 0 ≤ d) ∧
  (∀ p d, env.ffmpegCalc p = .ok d → 0 ≤ d)

lemma run_backend_nonneg {env : Env} {b : Backend} {p : String} {d : ℚ}
    (hb : backends_nonneg env) (h : run_backend env b p = .ok d) : 0 ≤ d := by
  cases b
  · exact hb.1 p d h
  · exact hb.2.1 p d h
  · exact hb.2.2 p d h

lemma calculate_duration_from_tensor_ok_nonneg {shape : List ℕ} {r : ℚ} {d : ℚ}
    (h : calculate_duration_from_tensor shape r = .ok d) : 0 ≤ d := by
  cases shape with
  | nil => exact absurd h (by simp [calculate_duration_from_tensor])
  | cons a l =>
    rw [calculate_duration_from_tensor_cons] at h
    split_ifs at h with hc
    · cases h
      exact div_nonneg (Nat.cast_nonneg _) (le_of_lt hc.2)
    · cases h
      exact le_refl 0

lemma calculate_from_file_ok {env : Env} {p cm : String} {tp : ℕ} {inc : Bool} {th : ℚ}
    {r : DurationResult} (h : calculate_from_file env p cm tp inc th = .ok r) :
    (∃ msg, r = error_response msg) ∨
    (r.status = "success" ∧ ∃ d,
      run_backend env (used_backend env
        (if cm = "auto" then select_calculation_mode env p else cm)) p = .ok d ∧
      r.durationSeconds = python_round d tp) := by
  unfold calculate_from_file at h
  by_cases h1 : p = ""
  · rw [if_pos h1] at h
    exact Or.inl ⟨_, (Except.ok.inj h).symm⟩
  rw [if_neg h1] at h
  by_cases h2 : env.fs.pathExists p = false
  · rw [if_pos h2] at h
    exact Or.inl ⟨_, (Except.ok.inj h).symm⟩
  rw [if_neg h2] at h
  by_cases h3 : env.fs.isFile p = false
  · rw [if_pos h3] at h
    exact Or.inl ⟨_, (Except.ok.inj h).symm⟩
  rw [if_neg h3] at h
  cases hg : env.fs.getsize p with
  | error e =>
    rw [hg] at h
    exact absurd h (by simp)
  | ok sz =>
    rw [hg] at h
    dsimp only at h
    by_cases h4 : sz = 0
    · rw [if_pos h4] at h
      exact Or.inl ⟨_, (Except.ok.inj h).symm⟩
    rw [if_neg h4] at h
    cases hb : run_backend env (used_backend env
        (if cm = "auto" then select_calculation_mode env p else cm)) p with
    | error e =>
      rw [hb] at h
      exact Or.inl ⟨_, (Except.ok.inj h).symm⟩
    | ok d =>
      rw [hb] at h
      right
      have hr := (Except.ok.inj h).symm
      subst hr
      refine ⟨rfl, d, rfl, ?_⟩
      simp only [remove_silence_duration, ite_self]

/-- The list branch of the duration node recurses through the full
entry point. -/
lemma calculate_audio_duration_list_step (env : Env) (inner : AudioInput)
    (cm : String) (tp : ℕ) (inc : Bool) (th : ℚ) :
    calculate_audio_duration env (.listOf inner) cm tp inc th =
      calculate_audio_duration env inner cm tp inc th := rfl

/-- Every result of the duration entry point is either the uniform
error tuple or a success tuple whose seconds value is non-negative
under well-behaved backends. -/
lemma duration_entry_shape (env : Env) (audio : AudioInput) (cm : String) (tp : ℕ)
    (inc : Bool) (th : ℚ) :
    (∃ msg, calculate_audio_duration env audio cm tp inc th = error_response msg) ∨
    ((calculate_audio_duration env audio cm tp inc th).status = "success" ∧
      (backends_nonneg env →
        0 ≤ (calculate_audio_duration env audio cm tp inc th).durationSeconds)) := by
  induction audio with
  | dictWaveform w sro =>
    cases hc : calculate_duration_from_tensor w.shape (sro.getD 24000) with
    | error e =>
      left
      exact ⟨"Исключение: " ++ e, by simp only [calculate_audio_duration, calculate_body, hc]⟩
    | ok d =>
      right
      constructor
      · simp only [calculate_audio_duration, calculate_body, hc]
      · intro _
        simp only [calculate_audio_duration, calculate_body, hc]
        exact python_round_nonneg (calculate_duration_from_tensor_ok_nonneg hc) tp
  | tensor w =>
    cases hc : calculate_duration_from_tensor w.shape 24000 with
    | error e =>
      left
      exact ⟨"Исключение: " ++ e, by simp only [calculate_audio_duration, calculate_body, hc]⟩
    | ok d =>
      right
      constructor
      · simp only [calculate_audio_duration, calculate_body, hc]
      · intro _
        simp only [calculate_audio_duration, calculate_body, hc]
        exact python_round_nonneg (calculate_duration_from_tensor_ok_nonneg hc) tp
  | dictFilePath p =>
    cases hf : calculate_from_file env p cm tp inc th with
    | error e =>
      left
      exact ⟨"Исключение: " ++ e, by simp only [calculate_audio_duration, calculate_body, hf]⟩
    | ok r =>
      have he : calculate_audio_duration env (.dictFilePath p) cm tp inc th = r := by
        simp only [calculate_audio_duration, calculate_body, hf]
      rcases calculate_from_file_ok hf with ⟨msg, hr⟩ | ⟨hs, d, hb, hd⟩
      · left
        exact ⟨msg, by rw [he, hr]⟩
      · right
        refine ⟨by rw [he]; exact hs, fun hbn => ?_⟩
        rw [he, hd]
        exact python_round_nonneg (run_backend_nonneg hbn hb) tp
  | str p =>
    cases hf : calculate_from_file env p cm tp inc th with
    | error e =>
      left
      exact ⟨"Исключение: " ++ e, by simp only [calculate_audio_duration, calculate_body, hf]⟩
    | ok r =>
      have he : calculate_audio_duration env (.str p) cm tp inc th = r := by
        simp only [calculate_audio_duration, calculate_body, hf]
      rcases calculate_from_file_ok hf with ⟨msg, hr⟩ | ⟨hs, d, hb, hd⟩
      · left
        exact ⟨msg, by rw [he, hr]⟩
      · right
        refine ⟨by rw [he]; exact hs, fun hbn => ?_⟩
        rw [he, hd]
        exact python_round_nonneg (run_backend_nonneg hbn hb) tp
  | listOf inner ih =>
    rw [calculate_audio_duration_list_step]
    exact ih
  | dictOther => exact Or.inl ⟨_, rfl⟩
  | listEmpty => exact Or.inl ⟨_, rfl⟩
  | other t => exact Or.inl ⟨_, rfl⟩

/-- Shape of the non-waveform metadata flow: a record, the not-found
tuple, or a raising `os.path.getsize`. -/
lemma extract_body_from_path_shape (env : Env) (a : AudioInput) (f t g : Bool) :
    (∃ r, extract_body_from_path env a f t g = .ok r ∧ ∃ md, r.metadata = .record md) ∨
    extract_body_from_path env a f t g = .ok metadata_not_found ∨
    (∃ e, extract_body_from_path env a f t g = .error e) := by
  cases hg : get_audio_path env a with
  | none =>
    right
    left
    simp only [extract_body_from_path, hg]
  | some p =>
    simp only [extract_body_from_path, hg]
    split_ifs with h
    · exact Or.inr (Or.inl rfl)
    · cases hm : extract_all_metadata env p f t g with
      | error e => exact Or.inr (Or.inr ⟨e, rfl⟩)
      | ok md => exact Or.inl ⟨_, rfl, md, rfl⟩

/-- C2 shape of the metadata entry point for any input whose
`extract_body` takes the path flow. -/
lemma extract_shape_via_path {env : Env} {a : AudioInput} {f t g : Bool}
    (hstep : extract_body env a f t g = extract_body_from_path env a f t g) :
    (∃ md, (extract_audio_metadata env a f t g).metadata = .record md) ∨
    ((extract_audio_metadata env a f t g).metadata = .emptyObj ∧
     (extract_audio_metadata env a f t g).duration = 0 ∧
     ∃ m, (extract_audio_metadata env a f t g).summary = "Error: " ++ m) := by
  have hout : extract_audio_metadata env a f t g =
      match extract_body_from_path env a f t g with
      | .ok r => r
      | .error e =>
        { metadata := .emptyObj, summary := "Error: " ++ e, audio_format := "error"
          duration := 0 } := by
    unfold extract_audio_metadata
    rw [hstep]
  rcases extract_body_from_path_shape env a f t g with ⟨r, hr, md, hmd⟩ | hnf | ⟨e, he⟩
  · left
    exact ⟨md, by rw [hout, hr]; exact hmd⟩
  · right
    rw [hout, hnf]
    exact ⟨rfl, rfl, "Audio file not found", rfl⟩
  · right
    rw [hout, he]
    exact ⟨rfl, rfl, e, rfl⟩

/-! ### C3 -/

/-- Counterexample for C3: a waveform dict holding an empty rank-1
buffer (shape `(0,)`) yields status `"success"` together with duration
`0.0`, so a zero duration does not occur exclusively with an error
status. -/
theorem c3_counterexample_success_with_zero :
    (calculate_audio_duration triv_env (.dictWaveform ⟨[0], 4⟩ (some 24000))
      "auto" 3 true (-60)).status = "success" ∧
    (calculate_audio_duration triv_env (.dictWaveform ⟨[0], 4⟩ (some 24000))
      "auto" 3 true (-60)).durationSeconds = 0 := by
  have hc : calculate_duration_from_tensor [0] ((some (24000 : ℚ)).getD 24000) = .ok 0 := by
    rw [calculate_duration_from_tensor_cons]
    rw [if_neg]
    rintro ⟨hlt, _⟩
    exact absurd hlt (by decide)
  constructor
  · simp only [calculate_audio_duration, calculate_body, hc]
  · simp only [calculate_audio_duration, calculate_body, hc]
    exact python_round_zero 3

/-- C3 amended: the returned seconds value is always non-negative
(granted backends that report non-negative durations), and an error
status always carries duration `0.0` and the zero time string; but a
zero duration can also accompany a `"success"` status (empty buffer),
so zero does not occur exclusively with errors. -/
theorem c3_amended_nonneg_and_error_zero :
    ∀ (env : Env) (audio : AudioInput) (cm : String) (tp : ℕ) (inc : Bool) (th : ℚ),
    backends_nonneg env →
    0 ≤ (calculate_audio_duration env audio cm tp inc th).durationSeconds ∧
    ((calculate_audio_duration env audio cm tp inc th).status ≠ "success" →
      (calculate_audio_duration env audio cm tp inc th).durationSeconds = 0 ∧
      (calculate_audio_duration env audio cm tp inc th).durationFormatted =
        "00:00:00.000") := by
  intro env audio cm tp inc th hbn
  rcases duration_entry_shape env audio cm tp inc th with ⟨msg, hm⟩ | ⟨hs, hnn⟩
  · rw [hm]
    exact ⟨le_refl 0, fun _ => ⟨rfl, rfl⟩⟩
  · exact ⟨hnn hbn, fun hne => absurd hs hne⟩

/-- Witness for C3 (amended): the benign environment on a rank-1
buffer of five samples. -/
theorem c3_amended_nonneg_and_error_zero_witness :
    0 ≤ (calculate_audio_duration triv_env (.tensor ⟨[5], 4⟩) "auto" 3 true
      (-60)).durationSeconds ∧
    ((calculate_audio_duration triv_env (.tensor ⟨[5], 4⟩) "auto" 3 true
      (-60)).status ≠ "success" →
      (calculate_audio_duration triv_env (.tensor ⟨[5], 4⟩) "auto" 3 true
        (-60)).durationSeconds = 0 ∧
      (calculate_audio_duration triv_env (.tensor ⟨[5], 4⟩) "auto" 3 true
        (-60)).durationFormatted = "00:00:00.000") :=
  c3_amended_nonneg_and_error_zero triv_env (.tensor ⟨[5], 4⟩) "auto" 3 true (-60)
    ⟨fun p d h => by injection h with h; rw [← h]; norm_num,
     fun p d h => by injection h with h; rw [← h]; norm_num,
     fun p d h => by injection h with h; rw [← h]; norm_num⟩

/-! ### C2 -/

/-- C2: none of the three node entry points lets an exception escape —
each is a total function into its fixed-arity result tuple, and every
failure surfaces as the uniform error value (the duration node's
`error:` tuple, the metadata node's empty record with an `Error:`
summary and zero duration, the batch node's empty blobs with an error
or no-files summary). -/
theorem c2_entry_points_catch_all :
    (∀ (env : Env) (audio : AudioInput) (cm : String) (tp : ℕ) (inc : Bool) (th : ℚ),
      (calculate_audio_duration env audio cm tp inc th).status = "success" ∨
      ∃ msg, calculate_audio_duration env audio cm tp inc th = error_response msg) ∧
    (∀ (env : Env) (audio : AudioInput) (f t g : Bool),
      (∃ md, (extract_audio_metadata env audio f t g).metadata = .record md) ∨
      ((extract_audio_metadata env audio f t g).metadata = .emptyObj ∧
       (extract_audio_metadata env audio f t g).duration = 0 ∧
       ∃ m, (extract_audio_metadata env audio f t g).summary = "Error: " ++ m)) ∧
    (∀ (env : Env) (dp fp op : String) (rec : Bool),
      (∃ rs, (process_audio_batch env dp fp op rec).results = .records rs) ∨
      ((process_audio_batch env dp fp op rec).results = .emptyObj ∧
       ((process_audio_batch env dp fp op rec).summary = "Error: Directory not found" ∨
        (process_audio_batch env dp fp op rec).summary = "No audio files found"))) := by
  refine ⟨?_, ?_, ?_⟩
  · intro env audio cm tp inc th
    rcases duration_entry_shape env audio cm tp inc th with ⟨msg, hm⟩ | ⟨hs, _⟩
    · exact Or.inr ⟨msg, hm⟩
    · exact Or.inl hs
  · intro env audio f t g
    cases audio with
    | dictWaveform w sro => exact Or.inl ⟨_, rfl⟩
    | dictFilePath p => exact extract_shape_via_path rfl
    | dictOther => exact extract_shape_via_path rfl
    | tensor w => exact extract_shape_via_path rfl
    | listOf inner => exact extract_shape_via_path rfl
    | listEmpty => exact extract_shape_via_path rfl
    | str p => exact extract_shape_via_path rfl
    | other t => exact extract_shape_via_path rfl
  · intro env dp fp op rec
    simp only [process_audio_batch]
    split_ifs with h1 h2
    · exact Or.inr ⟨rfl, Or.inl rfl⟩
    · exact Or.inr ⟨rfl, Or.inr rfl⟩
    · exact Or.inl ⟨_, rfl⟩

/-! ### C10 -/

lemma process_single_file_ok_status {env : Env} {f op : String} {r : BatchRecord}
    (h : process_single_file env f op = .ok r) : r.status = "success" := by
  unfold process_single_file at h
  cases hg : env.fs.getsize f with
  | error e =>
    rw [hg] at h
    exact absurd h (by simp)
  | ok n =>
    rw [hg] at h
    dsimp only at h
    have hr := (Except.ok.inj h).symm
    subst hr
    split_ifs <;> rfl

lemma process_single_file_error {env : Env} {f op e : String}
    (h : process_single_file env f op = .error e) : env.fs.getsize f = .error e := by
  unfold process_single_file at h
  cases hg : env.fs.getsize f with
  | error e2 =>
    rw [hg] at h
    dsimp only at h
    injection h with h
    rw [h]
  | ok n =>
    rw [hg] at h
    dsimp only at h
    exact absurd h (by simp)

/-- A missing file makes the duration node return the not-found (or
no-path) error tuple when called the way the batch loop calls it. -/
lemma duration_entry_missing_file {env : Env} {p cm : String} {tp : ℕ} {inc : Bool}
    {th : ℚ} (hex : env.fs.pathExists p = false) :
    calculate_audio_duration env (.dictFilePath p) cm tp inc th =
      error_response (if p = "" then "Путь к аудио файлу не получен"
        else "Аудио файл не найден по пути: " ++ p) := by
  by_cases h0 : p = ""
  · subst h0
    rw [if_pos rfl]
    unfold calculate_audio_duration calculate_body calculate_from_file
    rw [if_pos rfl]
  · rw [if_neg h0]
    unfold calculate_audio_duration calculate_body calculate_from_file
    rw [if_neg h0, if_pos hex]

/-- C10: the per-file batch record keeps the `"success"` status it was
created with whenever `os.path.getsize` succeeds — the two inner node
calls never raise, so nothing downgrades it; a record is `"failed"`
only when the per-file step itself raised (its `getsize`); and a file
whose duration computation failed still carries `status: "success"`
with `duration_seconds` 0.0 from the duration node's error tuple, so
it is counted as successful in the `Processed X/N files` summary. -/
theorem c10_batch_success_despite_duration_error :
    (∀ (env : Env) (f op : String) (n : ℕ), env.fs.getsize f = .ok n →
      (single_record env f op).status = "success") ∧
    (∀ (env : Env) (dp fp op : String) (rec : Bool) (r : BatchRecord),
      r ∈ batch_records env dp fp op rec →
      r.status = "success" ∨
      (r.status = "failed" ∧ ∃ e, env.fs.getsize r.file = .error e)) ∧
    (∀ (env : Env) (f : String) (n : ℕ), env.fs.getsize f = .ok n →
      env.fs.pathExists f = false →
      (single_record env f "duration").status = "success" ∧
      (single_record env f "duration").duration_seconds = some 0 ∧
      (single_record env f "duration").duration_formatted = some "00:00:00.000") := by
  refine ⟨?_, ?_, ?_⟩
  · intro env f op n hgs
    unfold single_record
    cases hp : process_single_file env f op with
    | ok r => exact process_single_file_ok_status hp
    | error e =>
      rw [process_single_file_error hp] at hgs
      exact absurd hgs (by simp)
  · intro env dp fp op rec r hr
    unfold batch_records at hr
    simp only [process_audio_batch] at hr
    split_ifs at hr with h1 h2
    · exact absurd hr (by simp [records_of])
    · exact absurd hr (by simp [records_of])
    · simp only [records_of] at hr
      rcases List.mem_map.mp hr with ⟨f, _, rfl⟩
      unfold single_record
      cases hp : process_single_file env f op with
      | ok rec2 => exact Or.inl (process_single_file_ok_status hp)
      | error e =>
        right
        exact ⟨rfl, e, process_single_file_error hp⟩
  · intro env f n hgs hex
    have hdur : calculate_audio_duration env (.dictFilePath f) "auto" 3 true (-60) =
        error_response (if f = "" then "Путь к аудио файлу не получен"
          else "Аудио файл не найден по пути: " ++ f) :=
      duration_entry_missing_file hex
    unfold single_record process_single_file
    rw [hgs]
    dsimp only
    rw [if_pos (show (("duration" == "duration" || "duration" == "both") = true) from rfl)]
    rw [if_neg (show ¬ (("duration" == "metadata" || "duration" == "both") = true) from
      by decide)]
    rw [hdur]
    exact ⟨rfl, rfl, rfl⟩

/-- An environment in which every file has a size but no path exists —
the situation of a file deleted between discovery and processing. -/
def vanished_env : Env :=
  { triv_env with
    fs := { pathExists := fun _ => false, isFile := fun _ => false
            isDir := fun _ => true, getsize := fun _ => .ok 7 } }

/-- Witness for C10: a sized but non-existent file is still a
`"success"` record with duration 0.0. -/
theorem c10_batch_success_despite_duration_error_witness :
    (single_record vanished_env "gone.mp3" "duration").status = "success" ∧
    (single_record vanished_env "gone.mp3" "duration").duration_seconds = some 0 ∧
    (single_record vanished_env "gone.mp3" "duration").duration_formatted =
      some "00:00:00.000" :=
  c10_batch_success_despite_duration_error.2.2 vanished_env "gone.mp3" 7 rfl rfl

/-! ### C8 -/

lemma process_single_file_ok_file {env : Env} {f op : String} {r : BatchRecord}
    (h : process_single_file env f op = .ok r) : r.file = f := by
  unfold process_single_file at h
  cases hg : env.fs.getsize f with
  | error e =>
    rw [hg] at h
    exact absurd h (by simp)
  | ok n =>
    rw [hg] at h
    dsimp only at h
    have hr := (Except.ok.inj h).symm
    subst hr
    split_ifs <;> rfl

lemma single_record_file (env : Env) (f op : String) : (single_record env f op).file = f := by
  unfold single_record
  cases hp : process_single_file env f op with
  | ok r => exact process_single_file_ok_file hp
  | error e => rfl

lemma processed_prefix_helper (k : ℕ) (tail : String) :
    ("Processed " ++ toString k ++ "/3 files").data <+:
      ("Processed " ++ toString k ++ "/" ++ toString 3 ++ " files | " ++
        "Total duration: " ++ tail).data := by
  simp only [String.data_append, List.append_assoc]
  refine ⟨" | Total duration: ".data ++ tail.data, ?_⟩
  simp only [List.append_assoc]
  rfl

lemma processed_eq_helper (k : ℕ) :
    ("Processed " ++ toString k ++ "/3 files").data <+:
      ("Processed " ++ toString k ++ "/" ++ toString 3 ++ " files").data := by
  simp only [String.data_append, List.append_assoc]
  refine ⟨[], ?_⟩
  simp only [List.append_nil]
  rfl

lemma create_batch_summary_prefix (rs : List BatchRecord) (op : String)
    (h3 : rs.length = 3) :
    ("Processed " ++ toString (success_count rs) ++ "/3 files").data <+:
      (create_batch_summary rs op).data := by
  simp only [create_batch_summary, h3]
  split_ifs with hop h1 h2
  · exact processed_prefix_helper (success_count rs) _
  · exact processed_prefix_helper (success_count rs) _
  · exact processed_prefix_helper (success_count rs) _
  · exact processed_eq_helper (success_count rs)

/-- C8: a batch run over a directory whose walk yields exactly three
pattern-matching files and one non-matching file produces exactly
three per-file records, in deduplicated lexicographic path order, a
success count of at most 3, and a summary reporting
`Processed X/3 files` where `X` is that success count. -/
theorem c8_batch_directory_three_matches :
    ∀ (env : Env) (dir pattern op : String) (a b c d : String),
    env.fs.isDir dir = true → dir ≠ "" →
    env.walk dir = [(dir, [a, b, c, d])] →
    a ≠ b → a ≠ c → b ≠ c →
    matches_any env pattern a = true → matches_any env pattern b = true →
    matches_any env pattern c = true → matches_any env pattern d = false →
    (process_audio_batch env dir pattern op true).results =
      .records (batch_records env dir pattern op true) ∧
    (batch_records env dir pattern op true).length = 3 ∧
    success_count (batch_records env dir pattern op true) ≤ 3 ∧
    (("Processed " ++ toString (success_count (batch_records env dir pattern op true)) ++
      "/3 files").data <+: (process_audio_batch env dir pattern op true).summary.data) ∧
    List.Sorted (· ≤ ·) ((batch_records env dir pattern op true).map (fun r => r.file)) ∧
    ((batch_records env dir pattern op true).map (fun r => r.file)).Nodup := by
  intro env dir pattern op a b c d hdir hne hwalk hab hac hbc hma hmb hmc hmd
  unfold matches_any at hma hmb hmc hmd
  have hfd : find_audio_files env dir pattern true =
      (((env.walk dir).flatMap (fun rf =>
          ((py_split ',' pattern).map py_strip).flatMap (fun file_pattern =>
            (rf.2.filter (fun f => env.fnmatch f file_pattern)).map
              (fun f => rf.1 ++ "/" ++ f)))).dedup).insertionSort (· ≤ ·) := rfl
  set col := (env.walk dir).flatMap (fun rf =>
      ((py_split ',' pattern).map py_strip).flatMap (fun file_pattern =>
        (rf.2.filter (fun f => env.fnmatch f file_pattern)).map
          (fun f => rf.1 ++ "/" ++ f))) with hcol_def
  have hmem : ∀ x, x ∈ col ↔
      (x = dir ++ "/" ++ a ∨ x = dir ++ "/" ++ b ∨ x = dir ++ "/" ++ c) := by
    intro x
    rw [hcol_def, hwalk]
    constructor
    · intro hx
      rcases List.mem_flatMap.mp hx with ⟨rf, hrf, hx2⟩
      rw [List.mem_singleton] at hrf
      subst hrf
      rcases List.mem_flatMap.mp hx2 with ⟨pat, hpat, hx3⟩
      rcases List.mem_map.mp hx3 with ⟨f, hf, rfl⟩
      rcases List.mem_filter.mp hf with ⟨hfmem, hfm⟩
      have hfany : ((py_split ',' pattern).map py_strip).any
          (fun pat => env.fnmatch f pat) = true :=
        List.any_eq_true.mpr ⟨pat, hpat, hfm⟩
      simp only [List.mem_cons, List.not_mem_nil, or_false] at hfmem
      rcases hfmem with rfl | rfl | rfl | rfl
      · exact Or.inl rfl
      · exact Or.inr (Or.inl rfl)
      · exact Or.inr (Or.inr rfl)
      · rw [hfany] at hmd
        cases hmd
    · intro hx
      have step : ∀ f, f ∈ [a, b, c, d] →
          ((py_split ',' pattern).map py_strip).any (fun pat => env.fnmatch f pat) = true →
          dir ++ "/" ++ f ∈ [(dir, [a, b, c, d])].flatMap (fun rf =>
            ((py_split ',' pattern).map py_strip).flatMap (fun file_pattern =>
              (rf.2.filter (fun f => env.fnmatch f file_pattern)).map
                (fun f => rf.1 ++ "/" ++ f))) := by
        intro f hfm hfa
        rcases List.any_eq_true.mp hfa with ⟨pat, hpat, hmatch⟩
        refine List.mem_flatMap.mpr ⟨(dir, [a, b, c, d]), List.mem_singleton.mpr rfl, ?_⟩
        refine List.mem_flatMap.mpr ⟨pat, hpat, ?_⟩
        exact List.mem_map.mpr ⟨f, List.mem_filter.mpr ⟨hfm, hmatch⟩, rfl⟩
      rcases hx with rfl | rfl | rfl
      · exact step a (by simp) hma
      · exact step b (by simp) hmb
      · exact step c (by simp) hmc
  have hjab : dir ++ "/" ++ a ≠ dir ++ "/" ++ b :=
    fun h => hab (string_append_left_cancel h)
  have hjac : dir ++ "/" ++ a ≠ dir ++ "/" ++ c :=
    fun h => hac (string_append_left_cancel h)
  have hjbc : dir ++ "/" ++ b ≠ dir ++ "/" ++ c :=
    fun h => hbc (string_append_left_cancel h)
  have hfin : col.toFinset =
      {dir ++ "/" ++ a, dir ++ "/" ++ b, dir ++ "/" ++ c} := by
    ext x
    rw [List.mem_toFinset, hmem x]
    simp [Finset.mem_insert, Finset.mem_singleton]
  have hdlen : col.dedup.length = 3 := by
    have hcard := List.card_toFinset col
    rw [hfin] at hcard
    rw [← hcard]
    rw [Finset.card_insert_of_not_mem (by simp [hjab, hjac]),
        Finset.card_insert_of_not_mem (by simp [hjbc]),
        Finset.card_singleton]
  have hperm := List.perm_insertionSort (· ≤ ·) col.dedup
  have hflen : (find_audio_files env dir pattern true).length = 3 := by
    rw [hfd, hperm.length_eq]
    exact hdlen
  have hnotempty : ¬ ((find_audio_files env dir pattern true).isEmpty = true) := by
    rw [List.isEmpty_iff]
    intro h
    rw [h] at hflen
    simp at hflen
  have hnotdir : ¬ (dir = "" ∨ env.fs.isDir dir = false) := by
    rintro (h | h)
    · exact hne h
    · rw [hdir] at h
      cases h
  have hmain : process_audio_batch env dir pattern op true =
      { results := .records ((find_audio_files env dir pattern true).map
          (fun f => single_record env f op))
        summary := create_batch_summary ((find_audio_files env dir pattern true).map
          (fun f => single_record env f op)) op
        file_list := .files (find_audio_files env dir pattern true) } := by
    simp only [process_audio_batch]
    rw [if_neg hnotdir, if_neg hnotempty]
  have hbr : batch_records env dir pattern op true =
      (find_audio_files env dir pattern true).map (fun f => single_record env f op) := by
    unfold batch_records
    rw [hmain]
    rfl
  have hrs_len : (batch_records env dir pattern op true).length = 3 := by
    rw [hbr, List.length_map]
    exact hflen
  have hmapfile : (batch_records env dir pattern op true).map (fun r => r.file) =
      find_audio_files env dir pattern true := by
    rw [hbr, List.map_map]
    have h1 : ∀ f ∈ find_audio_files env dir pattern true,
        ((fun r : BatchRecord => r.file) ∘ fun f => single_record env f op) f =
          (fun f => f) f :=
      fun f _ => single_record_file env f op
    rw [List.map_congr_left h1]
    simp
  refine ⟨?_, hrs_len, ?_, ?_, ?_, ?_⟩
  · rw [hmain, hbr]
  · rw [← hrs_len]
    exact List.length_filter_le _ _
  · have hlen2 : ((find_audio_files env dir pattern true).map
        (fun f => single_record env f op)).length = 3 := by
      rw [← hbr]
      exact hrs_len
    rw [hmain, hbr]
    exact create_batch_summary_prefix _ op hlen2
  · rw [hmapfile, hfd]
    exact List.sorted_insertionSort _ _
  · rw [hmapfile, hfd]
    exact (List.Perm.nodup_iff hperm).mpr (List.nodup_dedup col)

/-- An environment whose walk of `/d` finds three matching audio files
and one non-matching text file; `fnmatch` is the suffix test the two
glob patterns amount to. -/
def batch_env : Env :=
  { triv_env with
    walk := fun r => if r = "/d" then [("/d", ["a.mp3", "b.wav", "c.mp3", "d.txt"])] else []
    fnmatch := fun f pat =>
      (pat == "*.mp3" && str_ends_with f ".mp3") ||
      (pat == "*.wav" && str_ends_with f ".wav") }

/-- Witness for C8: the concrete four-file directory. -/
theorem c8_batch_directory_three_matches_witness :
    (process_audio_batch batch_env "/d" "*.mp3,*.wav" "metadata" true).results =
      .records (batch_records batch_env "/d" "*.mp3,*.wav" "metadata" true) ∧
    (batch_records batch_env "/d" "*.mp3,*.wav" "metadata" true).length = 3 ∧
    success_count (batch_records batch_env "/d" "*.mp3,*.wav" "metadata" true) ≤ 3 ∧
    (("Processed " ++
      toString (success_count (batch_records batch_env "/d" "*.mp3,*.wav" "metadata" true)) ++
      "/3 files").data <+:
      (process_audio_batch batch_env "/d" "*.mp3,*.wav" "metadata" true).summary.data) ∧
    List.Sorted (· ≤ ·) ((batch_records batch_env "/d" "*.mp3,*.wav" "metadata" true).map
      (fun r => r.file)) ∧
    ((batch_records batch_env "/d" "*.mp3,*.wav" "metadata" true).map
      (fun r => r.file)).Nodup :=
  c8_batch_directory_three_matches batch_env "/d" "*.mp3,*.wav" "metadata"
    "a.mp3" "b.wav" "c.mp3" "d.txt" rfl (by decide) (by decide) (by decide) (by decide)
    (by decide) (by decide) (by decide) (by decide) (by decide)

end DVA
